import Mathlib

/-!
# Timer/Counter tick source for ATxmega (`portable/GCC/AVR/port_atxmega_tc.c`)

A shallow embedding of the tick-timer port file: the register writes of
`prvSetupTimerInterrupt` and `disable`, and the two tick interrupt service
routines selected by `configUSE_PREEMPTION`.

Machine integers are natural numbers with explicit truncation: the 8-bit
registers are stored modulo `2 ^ 8`, the 16-bit period register modulo
`2 ^ 16`, and the complement `~m` of an `int` constant is its 16-bit
two's-complement bit pattern (`int` is 16 bits wide on AVR).
-/

namespace PortAtxmegaTc

/-! ## Machine arithmetic -/

/-- Conversion of a value to `uint8_t` (a store to an 8-bit register). -/
def u8 (x : Nat) : Nat := x % 2 ^ 8

/-- Conversion of a value to `uint16_t` (a store to a 16-bit register). -/
def u16 (x : Nat) : Nat := x % 2 ^ 16

/-- Bit pattern of `~m` for an `int` operand `m` (16-bit two's complement). -/
def compl (m : Nat) : Nat := (2 ^ 16 - 1) ^^^ m

/-! ## Configuration -/

/-- The enumeration `prgen_offset` of the source: the byte offset of a port's
power-reduction register from `PR.PRGEN`. -/
inductive prgen_offset where
  | PRGEN_GEN
  | PRGEN_A
  | PRGEN_B
  | PRGEN_C
  | PRGEN_D
  | PRGEN_E
  | PRGEN_F
  deriving DecidableEq, Repr

/-- The enumerator values of `prgen_offset` (C numbers them from 0). -/
def prgen_offset.toNat : prgen_offset → Nat
  | .PRGEN_GEN => 0
  | .PRGEN_A => 1
  | .PRGEN_B => 2
  | .PRGEN_C => 3
  | .PRGEN_D => 4
  | .PRGEN_E => 5
  | .PRGEN_F => 6

/-- The clock selections the file's header comment lists for
`configUSE_TIMER_CLKSEL` (`TC_CLKSEL_DIV1_gc` ... `TC_CLKSEL_DIV1024_gc`). -/
inductive TC_CLKSEL where
  | DIV1
  | DIV2
  | DIV4
  | DIV8
  | DIV64
  | DIV256
  | DIV1024
  deriving DecidableEq, Repr

/-- The constants of `<avr/io.h>` that the file uses.  The device header is
not part of the port file, so its values are parameters.  A constant whose
name the macros build from the instance index (`PR_TC ## id ## _bm`,
`TC ## id ## _WGMODE_gm`, ...) is a function of that index. -/
structure IoHeader where
  /-- The constant `PR_TC<id>_bm`. -/
  PR_TC_bm : Nat → Nat
  /-- The constant `PR_HIRES_bm`. -/
  PR_HIRES_bm : Nat
  /-- The constant `TC<id>_WGMODE_gm`. -/
  TC_WGMODE_gm : Nat → Nat
  /-- The constant `TC_WGMODE_NORMAL_gc`. -/
  TC_WGMODE_NORMAL_gc : Nat
  /-- The constant `TC<id>_OVFINTLVL_gm`. -/
  TC_OVFINTLVL_gm : Nat → Nat
  /-- The constant `TC<id>_OVFINTLVL_gp`. -/
  TC_OVFINTLVL_gp : Nat → Nat
  /-- The constant `TC<id>_CLKSEL_gm`. -/
  TC_CLKSEL_gm : Nat → Nat
  /-- The constants `TC_CLKSEL_DIV1_gc` ... `TC_CLKSEL_DIV1024_gc`. -/
  TC_CLKSEL_gc : TC_CLKSEL → Nat

/-- The options of `FreeRTOSConfig.h` that the file reads.  The two
frequencies are the values of the integer constant expressions
`configCPU_CLOCK_HZ` and `configTICK_RATE_HZ`, which C divides at a type that
holds both; the conversion to the 16-bit period register is explicit in
`prvSetupTimerInterrupt`. -/
structure FreeRTOSConfig where
  configUSE_TIMER_INSTANCE_LETTER : prgen_offset
  configUSE_TIMER_INSTANCE_INDEX : Nat
  configUSE_TIMER_CLKSEL : TC_CLKSEL
  configCPU_CLOCK_HZ : Nat
  configTICK_RATE_HZ : Nat
  configUSE_PREEMPTION : Nat

/-! ## Macro expansion helpers -/

/-- The macro `PGEN_IDX`: `PRGEN_ ## letter`, an enumerator of `prgen_offset`. -/
def PGEN_IDX (c : FreeRTOSConfig) : Nat :=
  c.configUSE_TIMER_INSTANCE_LETTER.toNat

/-- The macro `PC_TC_bm( id )`: `PR_TC ## id ## _bm`. -/
def PC_TC_bm (h : IoHeader) (id : Nat) : Nat := h.PR_TC_bm id

/-- The macro `TC_WGMODE_gm( id )`: `TC ## id ## _WGMODE_gm`. -/
def TC_WGMODE_gm (h : IoHeader) (id : Nat) : Nat := h.TC_WGMODE_gm id

/-- The macro `TC_OVFINTLVL_gm`. -/
def TC_OVFINTLVL_gm (h : IoHeader) (c : FreeRTOSConfig) : Nat :=
  h.TC_OVFINTLVL_gm c.configUSE_TIMER_INSTANCE_INDEX

/-- The macro `TC_OVFINTLVL_gp`. -/
def TC_OVFINTLVL_gp (h : IoHeader) (c : FreeRTOSConfig) : Nat :=
  h.TC_OVFINTLVL_gp c.configUSE_TIMER_INSTANCE_INDEX

/-- The macro `TC_CLKSEL_gm`. -/
def TC_CLKSEL_gm (h : IoHeader) (c : FreeRTOSConfig) : Nat :=
  h.TC_CLKSEL_gm c.configUSE_TIMER_INSTANCE_INDEX

/-- The mask `PC_TC_bm( configUSE_TIMER_INSTANCE_INDEX ) | PR_HIRES_bm` that
both `prvSetupTimerInterrupt` and `disable` apply to the power-reduction
register. -/
def prMask (h : IoHeader) (c : FreeRTOSConfig) : Nat :=
  PC_TC_bm h c.configUSE_TIMER_INSTANCE_INDEX ||| h.PR_HIRES_bm

/-! ## Register state -/

/-- The registers of one timer/counter (`TC0_t` / `TC1_t`) that the file
accesses. `CTRLA`, `CTRLB` and `INTCTRLA` are 8 bits wide, `PER` is 16. -/
structure TC_t where
  CTRLA : Nat
  CTRLB : Nat
  INTCTRLA : Nat
  PER : Nat
  deriving DecidableEq, Repr

/-- The peripheral registers the file can reach: the power-reduction block,
addressed by byte offset from `PR.PRGEN`, and the timer/counter register
blocks `TC<letter><index>`. -/
structure Regs where
  PR : Nat → Nat
  TC : prgen_offset → Nat → TC_t

/-- The timer/counter `TC_REG` selected by the configuration. -/
def TC_REG (c : FreeRTOSConfig) (s : Regs) : TC_t :=
  s.TC c.configUSE_TIMER_INSTANCE_LETTER c.configUSE_TIMER_INSTANCE_INDEX

/-- Store to the byte at `&PR.PRGEN + off`. -/
def Regs.setPR (s : Regs) (off v : Nat) : Regs :=
  { s with PR := fun o => if o = off then v else s.PR o }

/-- Store to the registers of `TC_REG`. -/
def Regs.setTC (s : Regs) (c : FreeRTOSConfig) (t : TC_t) : Regs :=
  { s with TC := fun l i =>
      if l = c.configUSE_TIMER_INSTANCE_LETTER ∧ i = c.configUSE_TIMER_INSTANCE_INDEX
      then t else s.TC l i }

/-! ## The two routines -/

/-- The function `prvSetupTimerInterrupt`, statement by statement. -/
def prvSetupTimerInterrupt (h : IoHeader) (c : FreeRTOSConfig) (s : Regs) : Regs :=
  -- Enable power
  let s := s.setPR (PGEN_IDX c) (u8 (s.PR (PGEN_IDX c) &&& compl (prMask h c)))
  -- Set waveforme mode
  let s := s.setTC c { TC_REG c s with
    CTRLB := u8 (((TC_REG c s).CTRLB &&& compl (TC_WGMODE_gm h c.configUSE_TIMER_INSTANCE_INDEX))
      ||| h.TC_WGMODE_NORMAL_gc) }
  -- Set period
  let s := s.setTC c { TC_REG c s with
    PER := u16 (c.configCPU_CLOCK_HZ / c.configTICK_RATE_HZ) }
  -- Enable int
  let s := s.setTC c { TC_REG c s with
    INTCTRLA := u8 ((TC_REG c s).INTCTRLA &&& compl (TC_OVFINTLVL_gm h c)) }
  let s := s.setTC c { TC_REG c s with
    INTCTRLA := u8 ((TC_REG c s).INTCTRLA ||| (1 <<< TC_OVFINTLVL_gp h c)) }
  -- Enable timer source prescaler
  s.setTC c { TC_REG c s with
    CTRLA := u8 (((TC_REG c s).CTRLA &&& compl (TC_CLKSEL_gm h c))
      ||| h.TC_CLKSEL_gc c.configUSE_TIMER_CLKSEL) }

/-- The function `disable`. -/
def disable (h : IoHeader) (c : FreeRTOSConfig) (s : Regs) : Regs :=
  s.setPR (PGEN_IDX c) (u8 (s.PR (PGEN_IDX c) ||| prMask h c))

/-! ## Tick interrupt -/

/-- The calls and instructions a tick ISR body performs. -/
inductive Step where
  | portSAVE_CONTEXT
  | xTaskIncrementTick
  | vTaskSwitchContext
  | portRESTORE_CONTEXT
  | reti
  deriving DecidableEq, Repr

/-- Modelled from the spec: the kernel routines and port macros the ISR bodies
call are declared outside the port file.  Each is taken as an arbitrary
transformer of the state `σ` the collaborators own, and `xTaskIncrementTick`
has the interface the spec gives it, `advance_tick() -> bool`. -/
structure Kernel (σ : Type) where
  portSAVE_CONTEXT : σ → σ
  xTaskIncrementTick : σ → Bool × σ
  vTaskSwitchContext : σ → σ
  portRESTORE_CONTEXT : σ → σ
  reti : σ → σ

/-- Modelled from the spec: the constant `pdFALSE` is not in the port file;
it is the false result of `advance_tick() -> bool`. -/
def pdFALSE : Bool := false

/-- The state an ISR runs on: the collaborators' state and the log of the
steps performed so far, oldest first. -/
structure Machine (σ : Type) where
  kernel : σ
  trace : List Step

/-- Perform one step that returns nothing: run it and log it. -/
def Machine.exec {σ : Type} (m : Machine σ) (st : Step) (f : σ → σ) : Machine σ :=
  { kernel := f m.kernel, trace := m.trace ++ [st] }

/-- Call `xTaskIncrementTick`: run it, log it, and hand back its result. -/
def Machine.incrementTick {σ : Type} (m : Machine σ) (k : Kernel σ) : Bool × Machine σ :=
  ((k.xTaskIncrementTick m.kernel).1,
   { kernel := (k.xTaskIncrementTick m.kernel).2,
     trace := m.trace ++ [Step.xTaskIncrementTick] })

/-- The body of `ISR( VECTOR, ISR_NAKED )`, compiled when
`configUSE_PREEMPTION == 1`. -/
def ISR_preemptive {σ : Type} (k : Kernel σ) (m : Machine σ) : Machine σ :=
  let m := m.exec Step.portSAVE_CONTEXT k.portSAVE_CONTEXT
  let r := m.incrementTick k
  let m := if r.1 != pdFALSE
    then r.2.exec Step.vTaskSwitchContext k.vTaskSwitchContext
    else r.2
  let m := m.exec Step.portRESTORE_CONTEXT k.portRESTORE_CONTEXT
  m.exec Step.reti k.reti

/-- The body of `ISR( VECTOR )`, compiled otherwise. -/
def ISR_cooperative {σ : Type} (k : Kernel σ) (m : Machine σ) : Machine σ :=
  (m.incrementTick k).2

/-- The tick ISR that `#if configUSE_PREEMPTION == 1` selects. -/
def ISR {σ : Type} (c : FreeRTOSConfig) (k : Kernel σ) (m : Machine σ) : Machine σ :=
  if c.configUSE_PREEMPTION = 1 then ISR_preemptive k m else ISR_cooperative k m

/-! ## Header conventions and sample data -/

/-- The naming convention of the device header, for the timer index `id`: a
`_bm` or `_gm` constant is a mask of an 8-bit register, a `_gc` constant lies
inside the group mask of its bit-group, and `_gp` is the position of a bit
of its group. -/
def HeaderOK (h : IoHeader) (id : Nat) : Prop :=
  (h.PR_TC_bm id ||| h.PR_HIRES_bm) < 2 ^ 8 ∧
  h.TC_WGMODE_gm id < 2 ^ 8 ∧
  h.TC_WGMODE_NORMAL_gc &&& h.TC_WGMODE_gm id = h.TC_WGMODE_NORMAL_gc ∧
  h.TC_OVFINTLVL_gm id < 2 ^ 8 ∧
  (1 <<< h.TC_OVFINTLVL_gp id) &&& h.TC_OVFINTLVL_gm id = 1 <<< h.TC_OVFINTLVL_gp id ∧
  h.TC_CLKSEL_gm id < 2 ^ 8 ∧
  ∀ s : TC_CLKSEL, h.TC_CLKSEL_gc s &&& h.TC_CLKSEL_gm id = h.TC_CLKSEL_gc s

/-- The values an ATxmega device header gives the constants (timer types 0
and 1 share them, except for the power-reduction bit). -/
def xmegaHeader : IoHeader where
  PR_TC_bm := fun id => if id = 0 then 0x01 else 0x02
  PR_HIRES_bm := 0x04
  TC_WGMODE_gm := fun _ => 0x07
  TC_WGMODE_NORMAL_gc := 0x00
  TC_OVFINTLVL_gm := fun _ => 0x03
  TC_OVFINTLVL_gp := fun _ => 0
  TC_CLKSEL_gm := fun _ => 0x0F
  TC_CLKSEL_gc := fun s =>
    match s with
    | .DIV1 => 0x01
    | .DIV2 => 0x02
    | .DIV4 => 0x03
    | .DIV8 => 0x04
    | .DIV64 => 0x05
    | .DIV256 => 0x06
    | .DIV1024 => 0x07

/-- A sample configuration: timer `TCC0`, clock divided by 2, a 2 MHz CPU
clock and a 1 kHz tick, preemptive scheduling. -/
def sampleConfig : FreeRTOSConfig where
  configUSE_TIMER_INSTANCE_LETTER := prgen_offset.PRGEN_C
  configUSE_TIMER_INSTANCE_INDEX := 0
  configUSE_TIMER_CLKSEL := TC_CLKSEL.DIV2
  configCPU_CLOCK_HZ := 2000000
  configTICK_RATE_HZ := 1000
  configUSE_PREEMPTION := 1

/-- A sample register state with bits set in and out of every bit-group. -/
def sampleRegs : Regs where
  PR := fun _ => 0x5D
  TC := fun _ _ => { CTRLA := 0xA9, CTRLB := 0xF5, INTCTRLA := 0x0E, PER := 1234 }

/-- A sample collaborator state: the tick count, where a switch is due on
every even tick, and the other steps leave the count alone. -/
def sampleKernel : Kernel Nat where
  portSAVE_CONTEXT := fun n => n
  xTaskIncrementTick := fun n => ((n + 1) % 2 == 0, n + 1)
  vTaskSwitchContext := fun n => n
  portRESTORE_CONTEXT := fun n => n
  reti := fun n => n

/-- The sequence `disable`, `prvSetupTimerInterrupt`, `disable`. -/
def disableSetupDisable (h : IoHeader) (c : FreeRTOSConfig) (s : Regs) : Regs :=
  disable h c (prvSetupTimerInterrupt h c (disable h c s))

/-- The sample configuration with a CPU clock that makes the derived period
the largest 16-bit value, 65535. -/
def maxPeriodConfig : FreeRTOSConfig :=
  { sampleConfig with configCPU_CLOCK_HZ := 65535000 }

/-- The sample configuration with a CPU clock that makes the derived period
one more than the largest 16-bit value: 65536. -/
def overflowConfig : FreeRTOSConfig :=
  { sampleConfig with configCPU_CLOCK_HZ := 65536000 }

/-- The sample configuration with a tick rate above the CPU clock. -/
def slowClockConfig : FreeRTOSConfig :=
  { sampleConfig with configCPU_CLOCK_HZ := 1000, configTICK_RATE_HZ := 2000 }

/-- The sample configuration with the cooperative scheduler. -/
def cooperativeConfig : FreeRTOSConfig :=
  { sampleConfig with configUSE_PREEMPTION := 0 }

theorem xmegaHeader_ok (id : Nat) : HeaderOK xmegaHeader id := by
  refine ⟨?_, ?_, ?_, ?_, ?_, ?_, ?_⟩
  · by_cases hid : id = 0 <;> simp +decide [xmegaHeader, hid]
  all_goals try simp +decide [xmegaHeader]
  intro s; cases s <;> simp +decide [xmegaHeader]

/-! ## Bit-level lemmas -/

theorem testBit_u8 (x i : Nat) : (u8 x).testBit i = (decide (i < 8) && x.testBit i) := by
  unfold u8
  rw [Nat.testBit_mod_two_pow]

theorem testBit_compl (m i : Nat) :
    (compl m).testBit i = (decide (i < 16) ^^ m.testBit i) := by
  unfold compl
  rw [Nat.testBit_xor, Nat.testBit_two_pow_sub_one]

theorem u8_lt (x : Nat) : u8 x < 2 ^ 8 := Nat.mod_lt _ (by decide)

theorem testBit_of_lt_byte {m i : Nat} (hm : m < 2 ^ 8) (hi : 8 ≤ i) : m.testBit i = false :=
  Nat.testBit_lt_two_pow (lt_of_lt_of_le hm (Nat.pow_le_pow_right (by decide) hi))

theorem testBit_of_and_eq {c m : Nat} (hcm : c &&& m = c) (i : Nat) (hc : c.testBit i = true) :
    m.testBit i = true := by
  have h := congrArg (fun n => n.testBit i) hcm
  simp only [Nat.testBit_and, hc, Bool.true_and] at h
  exact h

/-- A read-modify-write `( x & ~m ) | c` stored to an 8-bit register keeps
bit `i` of the register when neither `m` nor `c` has it. -/
theorem rmw_frame (m c x i : Nat) (hi : i < 8) (hm : m.testBit i = false)
    (hc : c.testBit i = false) :
    (u8 ((x &&& compl m) ||| c)).testBit i = x.testBit i := by
  have h16 : i < 16 := by omega
  simp [testBit_u8, testBit_compl, Nat.testBit_or, Nat.testBit_and, hi, h16, hm, hc]

/-- A read-modify-write `( x & ~m ) | c` leaves the group `m` holding `c`. -/
theorem rmw_group (m c x : Nat) (hm : m < 2 ^ 8) (hcm : c &&& m = c) :
    u8 ((x &&& compl m) ||| c) &&& m = c := by
  apply Nat.eq_of_testBit_eq
  intro i
  have hc := testBit_of_and_eq hcm i
  simp only [testBit_u8, testBit_compl, Nat.testBit_or, Nat.testBit_and]
  by_cases hi : i < 8
  · have h16 : i < 16 := by omega
    cases hx : x.testBit i <;> cases hmi : m.testBit i <;> cases hci : c.testBit i <;>
      simp_all
  · have hmi := testBit_of_lt_byte hm (not_lt.mp hi)
    cases hci : c.testBit i <;> simp_all

/-- A read-modify-write `( x & ~m ) | c` done twice is the same as once. -/
theorem rmw_idem (m c x : Nat) :
    u8 ((u8 ((x &&& compl m) ||| c) &&& compl m) ||| c) = u8 ((x &&& compl m) ||| c) := by
  apply Nat.eq_of_testBit_eq
  intro i
  simp only [testBit_u8, testBit_compl, Nat.testBit_or, Nat.testBit_and]
  cases x.testBit i <;> cases m.testBit i <;> cases c.testBit i <;>
    cases decide (i < 8) <;> cases decide (i < 16) <;> rfl

/-- The two-statement update of `INTCTRLA` keeps bit `i` when neither the
group mask nor the level has it. -/
theorem rmw2_frame (m c x i : Nat) (hi : i < 8) (hm : m.testBit i = false)
    (hc : c.testBit i = false) :
    (u8 (u8 (x &&& compl m) ||| c)).testBit i = x.testBit i := by
  have h16 : i < 16 := by omega
  simp [testBit_u8, testBit_compl, Nat.testBit_or, Nat.testBit_and, hi, h16, hm, hc]

/-- The two-statement update of `INTCTRLA` leaves the group `m` holding `c`. -/
theorem rmw2_group (m c x : Nat) (hm : m < 2 ^ 8) (hcm : c &&& m = c) :
    u8 (u8 (x &&& compl m) ||| c) &&& m = c := by
  apply Nat.eq_of_testBit_eq
  intro i
  have hc := testBit_of_and_eq hcm i
  simp only [testBit_u8, testBit_compl, Nat.testBit_or, Nat.testBit_and]
  by_cases hi : i < 8
  · have h16 : i < 16 := by omega
    cases hx : x.testBit i <;> cases hmi : m.testBit i <;> cases hci : c.testBit i <;>
      simp_all
  · have hmi := testBit_of_lt_byte hm (not_lt.mp hi)
    cases hci : c.testBit i <;> simp_all

/-- The two-statement update of `INTCTRLA` done twice is the same as once. -/
theorem rmw2_idem (m c x : Nat) :
    u8 (u8 (u8 (u8 (x &&& compl m) ||| c) &&& compl m) ||| c) = u8 (u8 (x &&& compl m) ||| c) := by
  apply Nat.eq_of_testBit_eq
  intro i
  simp only [testBit_u8, testBit_compl, Nat.testBit_or, Nat.testBit_and]
  cases x.testBit i <;> cases m.testBit i <;> cases c.testBit i <;>
    cases decide (i < 8) <;> cases decide (i < 16) <;> rfl

/-- Clearing a mask in an 8-bit register leaves none of its bits. -/
theorem clear_group (m x : Nat) : u8 (x &&& compl m) &&& m = 0 := by
  apply Nat.eq_of_testBit_eq
  intro i
  simp only [testBit_u8, testBit_compl, Nat.testBit_and, Nat.zero_testBit]
  by_cases hi : i < 8
  · have h16 : i < 16 := by omega
    cases x.testBit i <;> cases m.testBit i <;> simp [hi, h16]
  · simp [hi]

/-- Clearing a mask in an 8-bit register keeps the bits outside it. -/
theorem clear_frame (m x i : Nat) (hi : i < 8) (hm : m.testBit i = false) :
    (u8 (x &&& compl m)).testBit i = x.testBit i := by
  have h16 : i < 16 := by omega
  simp [testBit_u8, testBit_compl, Nat.testBit_and, hi, h16, hm]

theorem clear_idem (m x : Nat) : u8 (u8 (x &&& compl m) &&& compl m) = u8 (x &&& compl m) := by
  apply Nat.eq_of_testBit_eq
  intro i
  simp only [testBit_u8, testBit_compl, Nat.testBit_and]
  cases x.testBit i <;> cases m.testBit i <;>
    cases decide (i < 8) <;> cases decide (i < 16) <;> rfl

/-- Setting a mask in an 8-bit register leaves all of its bits set. -/
theorem set_group (m x : Nat) (hm : m < 2 ^ 8) : u8 (x ||| m) &&& m = m := by
  apply Nat.eq_of_testBit_eq
  intro i
  simp only [testBit_u8, Nat.testBit_or, Nat.testBit_and]
  by_cases hi : i < 8
  · cases x.testBit i <;> cases m.testBit i <;> simp [hi]
  · simp [hi, testBit_of_lt_byte hm (not_lt.mp hi)]

/-- Setting a mask in an 8-bit register keeps the bits outside it. -/
theorem set_frame (m x i : Nat) (hi : i < 8) (hm : m.testBit i = false) :
    (u8 (x ||| m)).testBit i = x.testBit i := by
  simp [testBit_u8, Nat.testBit_or, hi, hm]

theorem set_idem (m x : Nat) : u8 (u8 (x ||| m) ||| m) = u8 (x ||| m) := by
  apply Nat.eq_of_testBit_eq
  intro i
  simp only [testBit_u8, Nat.testBit_or]
  cases x.testBit i <;> cases m.testBit i <;> cases decide (i < 8) <;> rfl

/-- Setting a mask after clearing it after setting it is setting it. -/
theorem set_clear_set (m x : Nat) : u8 (u8 (u8 (x ||| m) &&& compl m) ||| m) = u8 (x ||| m) := by
  apply Nat.eq_of_testBit_eq
  intro i
  simp only [testBit_u8, testBit_compl, Nat.testBit_or, Nat.testBit_and]
  by_cases hi : i < 8
  · have h16 : i < 16 := by omega
    cases x.testBit i <;> cases m.testBit i <;> simp [hi, h16]
  · simp [hi]

theorem and_or_eq_zero {x a b : Nat} (hx : x &&& (a ||| b) = 0) : x &&& a = 0 ∧ x &&& b = 0 := by
  have hbit : ∀ i, (x.testBit i && (a.testBit i || b.testBit i)) = false := by
    intro i
    have := congrArg (fun n => n.testBit i) hx
    simpa [Nat.testBit_and, Nat.testBit_or] using this
  constructor <;> apply Nat.eq_of_testBit_eq <;> intro i <;> have := hbit i <;>
    simp only [Nat.testBit_and, Nat.zero_testBit] <;>
    cases hxi : x.testBit i <;> cases hai : a.testBit i <;> cases hbi : b.testBit i <;> simp_all

theorem and_or_eq_self {x a b : Nat} (hx : x &&& (a ||| b) = a ||| b) :
    x &&& a = a ∧ x &&& b = b := by
  have hbit : ∀ i, (x.testBit i && (a.testBit i || b.testBit i))
      = (a.testBit i || b.testBit i) := by
    intro i
    have := congrArg (fun n => n.testBit i) hx
    simpa [Nat.testBit_and, Nat.testBit_or] using this
  constructor <;> apply Nat.eq_of_testBit_eq <;> intro i <;> have := hbit i <;>
    simp only [Nat.testBit_and] <;>
    cases hxi : x.testBit i <;> cases hai : a.testBit i <;> cases hbi : b.testBit i <;> simp_all

/-! ## Closed forms of the register state after each routine -/

theorem Regs.eq_of_fields (a b : Regs) (hPR : ∀ o, a.PR o = b.PR o)
    (hTC : ∀ l i, a.TC l i = b.TC l i) : a = b := by
  cases a with
  | mk aPR aTC =>
    cases b with
    | mk bPR bTC =>
      have h1 : aPR = bPR := funext hPR
      have h2 : aTC = bTC := funext fun l => funext fun i => hTC l i
      subst h1
      subst h2
      rfl

theorem setup_PR (h : IoHeader) (c : FreeRTOSConfig) (s : Regs) (o : Nat) :
    (prvSetupTimerInterrupt h c s).PR o
      = if o = PGEN_IDX c then u8 (s.PR (PGEN_IDX c) &&& compl (prMask h c)) else s.PR o := by
  simp [prvSetupTimerInterrupt, Regs.setTC, Regs.setPR]

theorem setup_TC_REG (h : IoHeader) (c : FreeRTOSConfig) (s : Regs) :
    TC_REG c (prvSetupTimerInterrupt h c s)
      = { CTRLA := u8 (((TC_REG c s).CTRLA &&& compl (TC_CLKSEL_gm h c))
            ||| h.TC_CLKSEL_gc c.configUSE_TIMER_CLKSEL),
          CTRLB := u8 (((TC_REG c s).CTRLB
            &&& compl (TC_WGMODE_gm h c.configUSE_TIMER_INSTANCE_INDEX))
            ||| h.TC_WGMODE_NORMAL_gc),
          INTCTRLA := u8 (u8 ((TC_REG c s).INTCTRLA &&& compl (TC_OVFINTLVL_gm h c))
            ||| (1 <<< TC_OVFINTLVL_gp h c)),
          PER := u16 (c.configCPU_CLOCK_HZ / c.configTICK_RATE_HZ) } := by
  simp [prvSetupTimerInterrupt, Regs.setTC, Regs.setPR, TC_REG]

theorem setup_TC_other (h : IoHeader) (c : FreeRTOSConfig) (s : Regs) (l : prgen_offset)
    (i : Nat)
    (hne : ¬ (l = c.configUSE_TIMER_INSTANCE_LETTER ∧ i = c.configUSE_TIMER_INSTANCE_INDEX)) :
    (prvSetupTimerInterrupt h c s).TC l i = s.TC l i := by
  simp [prvSetupTimerInterrupt, Regs.setTC, Regs.setPR, hne]

theorem setup_TC_self (h : IoHeader) (c : FreeRTOSConfig) (s : Regs) (l : prgen_offset)
    (i : Nat)
    (he : l = c.configUSE_TIMER_INSTANCE_LETTER ∧ i = c.configUSE_TIMER_INSTANCE_INDEX) :
    (prvSetupTimerInterrupt h c s).TC l i = TC_REG c (prvSetupTimerInterrupt h c s) := by
  rw [he.1, he.2]
  rfl

theorem disable_PR (h : IoHeader) (c : FreeRTOSConfig) (s : Regs) (o : Nat) :
    (disable h c s).PR o
      = if o = PGEN_IDX c then u8 (s.PR (PGEN_IDX c) ||| prMask h c) else s.PR o := by
  simp [disable, Regs.setPR]

theorem disable_TC (h : IoHeader) (c : FreeRTOSConfig) (s : Regs) :
    (disable h c s).TC = s.TC := rfl

theorem disable_TC_REG (h : IoHeader) (c : FreeRTOSConfig) (s : Regs) :
    TC_REG c (disable h c s) = TC_REG c s := rfl

/-! ## The period register -/

/-- The period register after `prvSetupTimerInterrupt` holds the quotient of
the two frequencies converted to 16 bits, for every header, configuration
and register state. -/
theorem setup_PER (h : IoHeader) (c : FreeRTOSConfig) (s : Regs) :
    (TC_REG c (prvSetupTimerInterrupt h c s)).PER
      = (c.configCPU_CLOCK_HZ / c.configTICK_RATE_HZ) % 2 ^ 16 := by
  rw [setup_TC_REG]
  rfl

/-- C1: for positive CPU and tick frequencies whose integer quotient fits the
16-bit counter, `prvSetupTimerInterrupt` leaves exactly that quotient in
`PER`, whichever clock selection of the closed set is configured. -/
theorem period_is_quotient (h : IoHeader) (c : FreeRTOSConfig) (s : Regs)
    (_hcpu : 0 < c.configCPU_CLOCK_HZ) (_htick : 0 < c.configTICK_RATE_HZ)
    (hfit : c.configCPU_CLOCK_HZ / c.configTICK_RATE_HZ < 2 ^ 16) (sel : TC_CLKSEL) :
    (TC_REG c (prvSetupTimerInterrupt h { c with configUSE_TIMER_CLKSEL := sel } s)).PER
      = c.configCPU_CLOCK_HZ / c.configTICK_RATE_HZ := by
  have hreg : TC_REG c (prvSetupTimerInterrupt h { c with configUSE_TIMER_CLKSEL := sel } s)
      = TC_REG { c with configUSE_TIMER_CLKSEL := sel }
          (prvSetupTimerInterrupt h { c with configUSE_TIMER_CLKSEL := sel } s) := rfl
  rw [hreg, setup_PER]
  exact Nat.mod_eq_of_lt hfit

/-- The two scenarios of C1: 2 MHz / 1 kHz with the clock divided by 2 gives
2000, and 32 MHz / 1 kHz gives 32000. -/
theorem period_is_quotient_witness :
    (TC_REG sampleConfig
        (prvSetupTimerInterrupt xmegaHeader
          { sampleConfig with configUSE_TIMER_CLKSEL := TC_CLKSEL.DIV2 } sampleRegs)).PER
      = 2000000 / 1000 ∧
    (2000000 / 1000 = 2000) ∧
    (TC_REG { sampleConfig with configCPU_CLOCK_HZ := 32000000 }
        (prvSetupTimerInterrupt xmegaHeader
          { sampleConfig with configCPU_CLOCK_HZ := 32000000,
                              configUSE_TIMER_CLKSEL := TC_CLKSEL.DIV1 } sampleRegs)).PER
      = 32000000 / 1000 ∧
    (32000000 / 1000 = 32000) :=
  ⟨period_is_quotient xmegaHeader sampleConfig sampleRegs (by decide) (by decide) (by decide)
      TC_CLKSEL.DIV2,
   by decide,
   period_is_quotient xmegaHeader { sampleConfig with configCPU_CLOCK_HZ := 32000000 }
      sampleRegs (by decide) (by decide) (by decide) TC_CLKSEL.DIV1,
   by decide⟩

/-! ## Frame and effect of `prvSetupTimerInterrupt` -/

/-- The bits `prvSetupTimerInterrupt` keeps in the registers it writes. -/
theorem setup_frame (h : IoHeader) (c : FreeRTOSConfig) (s : Regs)
    (hh : HeaderOK h c.configUSE_TIMER_INSTANCE_INDEX) (i : Nat) (hi : i < 8) :
    ((TC_WGMODE_gm h c.configUSE_TIMER_INSTANCE_INDEX).testBit i = false →
      (TC_REG c (prvSetupTimerInterrupt h c s)).CTRLB.testBit i
        = (TC_REG c s).CTRLB.testBit i) ∧
    ((TC_OVFINTLVL_gm h c).testBit i = false →
      (TC_REG c (prvSetupTimerInterrupt h c s)).INTCTRLA.testBit i
        = (TC_REG c s).INTCTRLA.testBit i) ∧
    ((TC_CLKSEL_gm h c).testBit i = false →
      (TC_REG c (prvSetupTimerInterrupt h c s)).CTRLA.testBit i
        = (TC_REG c s).CTRLA.testBit i) ∧
    ((PC_TC_bm h c.configUSE_TIMER_INSTANCE_INDEX).testBit i = false →
      h.PR_HIRES_bm.testBit i = false →
      ((prvSetupTimerInterrupt h c s).PR (PGEN_IDX c)).testBit i
        = (s.PR (PGEN_IDX c)).testBit i) := by
  obtain ⟨_, _, hwg, _, hovf, _, hclk⟩ := hh
  rw [setup_TC_REG, setup_PR]
  refine ⟨fun hm => ?_, fun hm => ?_, fun hm => ?_, fun hb hr => ?_⟩
  · apply rmw_frame _ _ _ _ hi hm
    cases hc : h.TC_WGMODE_NORMAL_gc.testBit i
    · rfl
    · have := testBit_of_and_eq hwg i hc
      simp [TC_WGMODE_gm] at hm
      simp [hm] at this
  · apply rmw2_frame _ _ _ _ hi hm
    cases hc : (1 <<< TC_OVFINTLVL_gp h c).testBit i
    · rfl
    · have := testBit_of_and_eq hovf i hc
      simp [TC_OVFINTLVL_gm] at hm
      simp [hm] at this
  · apply rmw_frame _ _ _ _ hi hm
    cases hc : (h.TC_CLKSEL_gc c.configUSE_TIMER_CLKSEL).testBit i
    · rfl
    · have := testBit_of_and_eq (hclk c.configUSE_TIMER_CLKSEL) i hc
      simp [TC_CLKSEL_gm] at hm
      simp [hm] at this
  · simp only [if_true]
    apply clear_frame _ _ _ hi
    simp [prMask, Nat.testBit_or, hb, hr]

/-- C2: with a header that follows the naming convention,
`prvSetupTimerInterrupt` keeps every bit of `CTRLB` outside `WGMODE_gm`, every
bit of `INTCTRLA` outside `OVFINTLVL_gm`, every bit of `CTRLA` outside
`CLKSEL_gm`, and every bit of the instance's power-reduction register other
than the timer's bit and the HIRES bit, for every initial register state and
every clock selection. -/
theorem setup_keeps_untouched_bits (h : IoHeader) (c : FreeRTOSConfig) (s : Regs)
    (hh : HeaderOK h c.configUSE_TIMER_INSTANCE_INDEX) (i : Nat) (hi : i < 8) :
    ((TC_WGMODE_gm h c.configUSE_TIMER_INSTANCE_INDEX).testBit i = false →
      (TC_REG c (prvSetupTimerInterrupt h c s)).CTRLB.testBit i
        = (TC_REG c s).CTRLB.testBit i) ∧
    ((TC_OVFINTLVL_gm h c).testBit i = false →
      (TC_REG c (prvSetupTimerInterrupt h c s)).INTCTRLA.testBit i
        = (TC_REG c s).INTCTRLA.testBit i) ∧
    ((TC_CLKSEL_gm h c).testBit i = false →
      (TC_REG c (prvSetupTimerInterrupt h c s)).CTRLA.testBit i
        = (TC_REG c s).CTRLA.testBit i) ∧
    ((PC_TC_bm h c.configUSE_TIMER_INSTANCE_INDEX).testBit i = false →
      h.PR_HIRES_bm.testBit i = false →
      ((prvSetupTimerInterrupt h c s).PR (PGEN_IDX c)).testBit i
        = (s.PR (PGEN_IDX c)).testBit i) := by
  exact setup_frame h c s hh i hi

/-- Bit 7 of every touched register of the sample state survives the setup:
it lies outside every bit-group of the sample header. -/
theorem setup_keeps_untouched_bits_witness :
    HeaderOK xmegaHeader sampleConfig.configUSE_TIMER_INSTANCE_INDEX ∧ 7 < 8 ∧
    (TC_REG sampleConfig (prvSetupTimerInterrupt xmegaHeader sampleConfig sampleRegs)).CTRLB.testBit 7
      = (TC_REG sampleConfig sampleRegs).CTRLB.testBit 7 ∧
    (TC_REG sampleConfig (prvSetupTimerInterrupt xmegaHeader sampleConfig sampleRegs)).INTCTRLA.testBit 7
      = (TC_REG sampleConfig sampleRegs).INTCTRLA.testBit 7 ∧
    (TC_REG sampleConfig (prvSetupTimerInterrupt xmegaHeader sampleConfig sampleRegs)).CTRLA.testBit 7
      = (TC_REG sampleConfig sampleRegs).CTRLA.testBit 7 ∧
    ((prvSetupTimerInterrupt xmegaHeader sampleConfig sampleRegs).PR
        (PGEN_IDX sampleConfig)).testBit 7
      = (sampleRegs.PR (PGEN_IDX sampleConfig)).testBit 7 :=
  ⟨xmegaHeader_ok _, by decide,
   (setup_keeps_untouched_bits xmegaHeader sampleConfig sampleRegs (xmegaHeader_ok _) 7
     (by decide)).1 (by decide),
   (setup_keeps_untouched_bits xmegaHeader sampleConfig sampleRegs (xmegaHeader_ok _) 7
     (by decide)).2.1 (by decide),
   (setup_keeps_untouched_bits xmegaHeader sampleConfig sampleRegs (xmegaHeader_ok _) 7
     (by decide)).2.2.1 (by decide),
   (setup_keeps_untouched_bits xmegaHeader sampleConfig sampleRegs (xmegaHeader_ok _) 7
     (by decide)).2.2.2 (by decide) (by decide)⟩

/-- C5: with a header that follows the naming convention, after
`prvSetupTimerInterrupt` the timer's power-reduction bit and the HIRES bit
are clear (from any state, and from one left by `disable`), the
waveform-mode group of `CTRLB` holds the NORMAL pattern, the
overflow-interrupt-level group of `INTCTRLA` holds `1 << OVFINTLVL_gp`, and
the clock-select group of `CTRLA` holds the configured selection. -/
theorem setup_establishes_groups (h : IoHeader) (c : FreeRTOSConfig) (s : Regs)
    (hh : HeaderOK h c.configUSE_TIMER_INSTANCE_INDEX) :
    ((prvSetupTimerInterrupt h c s).PR (PGEN_IDX c)
        &&& PC_TC_bm h c.configUSE_TIMER_INSTANCE_INDEX = 0 ∧
      (prvSetupTimerInterrupt h c s).PR (PGEN_IDX c) &&& h.PR_HIRES_bm = 0) ∧
    ((prvSetupTimerInterrupt h c (disable h c s)).PR (PGEN_IDX c)
        &&& PC_TC_bm h c.configUSE_TIMER_INSTANCE_INDEX = 0 ∧
      (prvSetupTimerInterrupt h c (disable h c s)).PR (PGEN_IDX c) &&& h.PR_HIRES_bm = 0) ∧
    (TC_REG c (prvSetupTimerInterrupt h c s)).CTRLB
        &&& TC_WGMODE_gm h c.configUSE_TIMER_INSTANCE_INDEX = h.TC_WGMODE_NORMAL_gc ∧
    (TC_REG c (prvSetupTimerInterrupt h c s)).INTCTRLA &&& TC_OVFINTLVL_gm h c
        = 1 <<< TC_OVFINTLVL_gp h c ∧
    (TC_REG c (prvSetupTimerInterrupt h c s)).CTRLA &&& TC_CLKSEL_gm h c
        = h.TC_CLKSEL_gc c.configUSE_TIMER_CLKSEL := by
  obtain ⟨_, hwgm, hwg, hovfm, hovf, hclkm, hclk⟩ := hh
  rw [setup_TC_REG]
  refine ⟨?_, ?_, rmw_group _ _ _ hwgm hwg, rmw2_group _ _ _ hovfm hovf,
    rmw_group _ _ _ hclkm (hclk _)⟩
  · apply and_or_eq_zero
    rw [setup_PR, if_pos rfl]
    exact clear_group _ _
  · apply and_or_eq_zero
    rw [setup_PR, if_pos rfl]
    exact clear_group _ _

/-- The groups of the sample state after the setup. -/
theorem setup_establishes_groups_witness :
    HeaderOK xmegaHeader sampleConfig.configUSE_TIMER_INSTANCE_INDEX ∧
    (((prvSetupTimerInterrupt xmegaHeader sampleConfig sampleRegs).PR (PGEN_IDX sampleConfig)
        &&& PC_TC_bm xmegaHeader sampleConfig.configUSE_TIMER_INSTANCE_INDEX = 0 ∧
      (prvSetupTimerInterrupt xmegaHeader sampleConfig sampleRegs).PR (PGEN_IDX sampleConfig)
        &&& xmegaHeader.PR_HIRES_bm = 0) ∧
    ((prvSetupTimerInterrupt xmegaHeader sampleConfig
          (disable xmegaHeader sampleConfig sampleRegs)).PR (PGEN_IDX sampleConfig)
        &&& PC_TC_bm xmegaHeader sampleConfig.configUSE_TIMER_INSTANCE_INDEX = 0 ∧
      (prvSetupTimerInterrupt xmegaHeader sampleConfig
          (disable xmegaHeader sampleConfig sampleRegs)).PR (PGEN_IDX sampleConfig)
        &&& xmegaHeader.PR_HIRES_bm = 0) ∧
    (TC_REG sampleConfig (prvSetupTimerInterrupt xmegaHeader sampleConfig sampleRegs)).CTRLB
        &&& TC_WGMODE_gm xmegaHeader sampleConfig.configUSE_TIMER_INSTANCE_INDEX
        = xmegaHeader.TC_WGMODE_NORMAL_gc ∧
    (TC_REG sampleConfig (prvSetupTimerInterrupt xmegaHeader sampleConfig sampleRegs)).INTCTRLA
        &&& TC_OVFINTLVL_gm xmegaHeader sampleConfig
        = 1 <<< TC_OVFINTLVL_gp xmegaHeader sampleConfig ∧
    (TC_REG sampleConfig (prvSetupTimerInterrupt xmegaHeader sampleConfig sampleRegs)).CTRLA
        &&& TC_CLKSEL_gm xmegaHeader sampleConfig
        = xmegaHeader.TC_CLKSEL_gc sampleConfig.configUSE_TIMER_CLKSEL) :=
  ⟨xmegaHeader_ok _,
   setup_establishes_groups xmegaHeader sampleConfig sampleRegs (xmegaHeader_ok _)⟩

/-- Running `prvSetupTimerInterrupt` a second time changes no register. -/
theorem setup_twice (h : IoHeader) (c : FreeRTOSConfig) (s : Regs) :
    prvSetupTimerInterrupt h c (prvSetupTimerInterrupt h c s)
      = prvSetupTimerInterrupt h c s := by
  apply Regs.eq_of_fields
  · intro o
    simp only [setup_PR]
    by_cases ho : o = PGEN_IDX c
    · simp only [ho, if_true]
      exact clear_idem _ _
    · simp only [ho, if_false]
  · intro l i
    by_cases hl : l = c.configUSE_TIMER_INSTANCE_LETTER ∧ i = c.configUSE_TIMER_INSTANCE_INDEX
    · rw [setup_TC_self _ _ _ _ _ hl, setup_TC_self _ _ _ _ _ hl, setup_TC_REG h c
        (prvSetupTimerInterrupt h c s), setup_TC_REG h c s]
      simp only [rmw_idem, rmw2_idem]
    · rw [setup_TC_other _ _ _ _ _ hl]

/-- C6: `prvSetupTimerInterrupt` is idempotent: run twice with the same
configuration, it leaves exactly the register state that one run leaves. -/
theorem setup_idempotent (h : IoHeader) (c : FreeRTOSConfig) (s : Regs) :
    prvSetupTimerInterrupt h c (prvSetupTimerInterrupt h c s)
      = prvSetupTimerInterrupt h c s := by
  exact setup_twice h c s

/-! ## `disable` -/

/-- The effect and frame of `disable` on the registers. -/
theorem disable_effect (h : IoHeader) (c : FreeRTOSConfig) (s : Regs)
    (hh : HeaderOK h c.configUSE_TIMER_INSTANCE_INDEX) :
    ((disable h c s).PR (PGEN_IDX c) &&& PC_TC_bm h c.configUSE_TIMER_INSTANCE_INDEX
        = PC_TC_bm h c.configUSE_TIMER_INSTANCE_INDEX ∧
      (disable h c s).PR (PGEN_IDX c) &&& h.PR_HIRES_bm = h.PR_HIRES_bm) ∧
    (∀ i, i < 8 → (PC_TC_bm h c.configUSE_TIMER_INSTANCE_INDEX).testBit i = false →
      h.PR_HIRES_bm.testBit i = false →
      ((disable h c s).PR (PGEN_IDX c)).testBit i = (s.PR (PGEN_IDX c)).testBit i) ∧
    (∀ o, o ≠ PGEN_IDX c → (disable h c s).PR o = s.PR o) := by
  refine ⟨?_, ?_, ?_⟩
  · apply and_or_eq_self
    rw [disable_PR, if_pos rfl]
    exact set_group _ _ hh.1
  · intro i hi hb hr
    rw [disable_PR, if_pos rfl]
    apply set_frame _ _ _ hi
    simp [prMask, PC_TC_bm, Nat.testBit_or, hr]
    simpa [PC_TC_bm] using hb
  · intro o ho
    rw [disable_PR, if_neg ho]

/-- Running `disable` a second time changes no register. -/
theorem disable_twice (h : IoHeader) (c : FreeRTOSConfig) (s : Regs) :
    disable h c (disable h c s) = disable h c s := by
  apply Regs.eq_of_fields
  · intro o
    simp only [disable_PR]
    by_cases ho : o = PGEN_IDX c
    · simp only [ho, if_true]
      exact set_idem _ _
    · simp only [ho, if_false]
  · intro l i
    rfl

/-- C8: with a header that follows the naming convention, `disable` sets the
timer's power-reduction bit and the HIRES bit of the instance's
power-reduction register and changes nothing else: the other bits of that
register, the other power-reduction registers and every timer register
(`PER`, `CTRLA`, `CTRLB`, `INTCTRLA`) keep their values; and `disable`
applied twice equals `disable` applied once. -/
theorem disable_sets_only_power_bits (h : IoHeader) (c : FreeRTOSConfig) (s : Regs)
    (hh : HeaderOK h c.configUSE_TIMER_INSTANCE_INDEX) :
    ((disable h c s).PR (PGEN_IDX c) &&& PC_TC_bm h c.configUSE_TIMER_INSTANCE_INDEX
        = PC_TC_bm h c.configUSE_TIMER_INSTANCE_INDEX ∧
      (disable h c s).PR (PGEN_IDX c) &&& h.PR_HIRES_bm = h.PR_HIRES_bm) ∧
    (∀ i, i < 8 → (PC_TC_bm h c.configUSE_TIMER_INSTANCE_INDEX).testBit i = false →
      h.PR_HIRES_bm.testBit i = false →
      ((disable h c s).PR (PGEN_IDX c)).testBit i = (s.PR (PGEN_IDX c)).testBit i) ∧
    (∀ o, o ≠ PGEN_IDX c → (disable h c s).PR o = s.PR o) ∧
    (disable h c s).TC = s.TC ∧
    ((TC_REG c (disable h c s)).PER = (TC_REG c s).PER ∧
      (TC_REG c (disable h c s)).CTRLA = (TC_REG c s).CTRLA ∧
      (TC_REG c (disable h c s)).CTRLB = (TC_REG c s).CTRLB ∧
      (TC_REG c (disable h c s)).INTCTRLA = (TC_REG c s).INTCTRLA) ∧
    disable h c (disable h c s) = disable h c s := by
  obtain ⟨h1, h2, h3⟩ := disable_effect h c s hh
  exact ⟨h1, h2, h3, rfl, ⟨rfl, rfl, rfl, rfl⟩, disable_twice h c s⟩

/-- The effect of `disable` on the sample state. -/
theorem disable_sets_only_power_bits_witness :
    HeaderOK xmegaHeader sampleConfig.configUSE_TIMER_INSTANCE_INDEX ∧
    ((disable xmegaHeader sampleConfig sampleRegs).PR (PGEN_IDX sampleConfig)
        &&& xmegaHeader.PR_HIRES_bm = xmegaHeader.PR_HIRES_bm) ∧
    (TC_REG sampleConfig (disable xmegaHeader sampleConfig sampleRegs)).PER
      = (TC_REG sampleConfig sampleRegs).PER ∧
    disable xmegaHeader sampleConfig (disable xmegaHeader sampleConfig sampleRegs)
      = disable xmegaHeader sampleConfig sampleRegs :=
  ⟨xmegaHeader_ok _,
   (disable_sets_only_power_bits xmegaHeader sampleConfig sampleRegs (xmegaHeader_ok _)).1.2,
   (disable_sets_only_power_bits xmegaHeader sampleConfig sampleRegs
      (xmegaHeader_ok _)).2.2.2.2.1.1,
   (disable_sets_only_power_bits xmegaHeader sampleConfig sampleRegs
      (xmegaHeader_ok _)).2.2.2.2.2⟩

/-! ## `disable`, `prvSetupTimerInterrupt`, `disable` -/

/-- The timer registers after `prvSetupTimerInterrupt` depend only on the
timer registers before it. -/
theorem setup_TC_congr (h : IoHeader) (c : FreeRTOSConfig) (s t : Regs) (hst : s.TC = t.TC) :
    (prvSetupTimerInterrupt h c s).TC = (prvSetupTimerInterrupt h c t).TC := by
  funext l i
  have hreg : TC_REG c s = TC_REG c t := by simp [TC_REG, hst]
  by_cases hl : l = c.configUSE_TIMER_INSTANCE_LETTER ∧ i = c.configUSE_TIMER_INSTANCE_INDEX
  · rw [setup_TC_self _ _ _ _ _ hl, setup_TC_self _ _ _ _ _ hl, setup_TC_REG, setup_TC_REG,
      hreg]
  · rw [setup_TC_other _ _ _ _ _ hl, setup_TC_other _ _ _ _ _ hl, hst]

theorem dsd_PR (h : IoHeader) (c : FreeRTOSConfig) (s : Regs) (o : Nat) :
    (disableSetupDisable h c s).PR o
      = if o = PGEN_IDX c then u8 (s.PR (PGEN_IDX c) ||| prMask h c) else s.PR o := by
  simp only [disableSetupDisable, disable_PR, setup_PR]
  by_cases ho : o = PGEN_IDX c
  · simp only [ho, if_true]
    exact set_clear_set _ _
  · simp only [ho, if_false]

theorem dsd_TC (h : IoHeader) (c : FreeRTOSConfig) (s : Regs) :
    (disableSetupDisable h c s).TC = (prvSetupTimerInterrupt h c s).TC := by
  simp only [disableSetupDisable, disable_TC]
  exact setup_TC_congr h c _ _ rfl

theorem dsd_TC_REG (h : IoHeader) (c : FreeRTOSConfig) (s : Regs) :
    TC_REG c (disableSetupDisable h c s) = TC_REG c (prvSetupTimerInterrupt h c s) := by
  simp only [TC_REG, dsd_TC]

/-- Running the sequence a second time changes no register. -/
theorem dsd_twice (h : IoHeader) (c : FreeRTOSConfig) (s : Regs) :
    disableSetupDisable h c (disableSetupDisable h c s) = disableSetupDisable h c s := by
  apply Regs.eq_of_fields
  · intro o
    simp only [dsd_PR]
    by_cases ho : o = PGEN_IDX c
    · simp only [ho, if_true]
      exact set_idem _ _
    · simp only [ho, if_false]
  · intro l i
    rw [dsd_TC, setup_TC_congr h c _ _ (dsd_TC h c s), setup_twice, dsd_TC]

/-- C7: with a header that follows the naming convention, the sequence
`disable`, `prvSetupTimerInterrupt`, `disable` ends with the timer's
power-reduction bit and the HIRES bit set; every bit outside the bit-groups
the two routines touch (in the power-reduction register, `CTRLB`,
`INTCTRLA` and `CTRLA`, and all of every other register) has its initial
value; and running the sequence a second time changes nothing. -/
theorem disable_setup_disable (h : IoHeader) (c : FreeRTOSConfig) (s : Regs)
    (hh : HeaderOK h c.configUSE_TIMER_INSTANCE_INDEX) :
    ((disableSetupDisable h c s).PR (PGEN_IDX c)
        &&& PC_TC_bm h c.configUSE_TIMER_INSTANCE_INDEX
        = PC_TC_bm h c.configUSE_TIMER_INSTANCE_INDEX ∧
      (disableSetupDisable h c s).PR (PGEN_IDX c) &&& h.PR_HIRES_bm = h.PR_HIRES_bm) ∧
    (∀ i, i < 8 →
      ((PC_TC_bm h c.configUSE_TIMER_INSTANCE_INDEX).testBit i = false →
        h.PR_HIRES_bm.testBit i = false →
        ((disableSetupDisable h c s).PR (PGEN_IDX c)).testBit i
          = (s.PR (PGEN_IDX c)).testBit i) ∧
      ((TC_WGMODE_gm h c.configUSE_TIMER_INSTANCE_INDEX).testBit i = false →
        (TC_REG c (disableSetupDisable h c s)).CTRLB.testBit i
          = (TC_REG c s).CTRLB.testBit i) ∧
      ((TC_OVFINTLVL_gm h c).testBit i = false →
        (TC_REG c (disableSetupDisable h c s)).INTCTRLA.testBit i
          = (TC_REG c s).INTCTRLA.testBit i) ∧
      ((TC_CLKSEL_gm h c).testBit i = false →
        (TC_REG c (disableSetupDisable h c s)).CTRLA.testBit i
          = (TC_REG c s).CTRLA.testBit i)) ∧
    (∀ o, o ≠ PGEN_IDX c → (disableSetupDisable h c s).PR o = s.PR o) ∧
    (∀ l i, ¬ (l = c.configUSE_TIMER_INSTANCE_LETTER ∧ i = c.configUSE_TIMER_INSTANCE_INDEX) →
      (disableSetupDisable h c s).TC l i = s.TC l i) ∧
    disableSetupDisable h c (disableSetupDisable h c s) = disableSetupDisable h c s := by
  refine ⟨?_, ?_, ?_, ?_, dsd_twice h c s⟩
  · apply and_or_eq_self
    rw [dsd_PR, if_pos rfl]
    exact set_group _ _ hh.1
  · intro i hi
    obtain ⟨hB, hI, hA, _⟩ := setup_frame h c s hh i hi
    rw [dsd_TC_REG]
    refine ⟨fun hb hr => ?_, hB, hI, hA⟩
    rw [dsd_PR, if_pos rfl]
    apply set_frame _ _ _ hi
    simp [prMask, PC_TC_bm, Nat.testBit_or, hr]
    simpa [PC_TC_bm] using hb
  · intro o ho
    rw [dsd_PR, if_neg ho]
  · intro l i hl
    rw [dsd_TC, setup_TC_other _ _ _ _ _ hl]

/-- The sequence on the sample state: the HIRES bit ends set, and a second
run of the sequence changes nothing. -/
theorem disable_setup_disable_witness :
    HeaderOK xmegaHeader sampleConfig.configUSE_TIMER_INSTANCE_INDEX ∧
    ((disableSetupDisable xmegaHeader sampleConfig sampleRegs).PR (PGEN_IDX sampleConfig)
        &&& xmegaHeader.PR_HIRES_bm = xmegaHeader.PR_HIRES_bm) ∧
    disableSetupDisable xmegaHeader sampleConfig
        (disableSetupDisable xmegaHeader sampleConfig sampleRegs)
      = disableSetupDisable xmegaHeader sampleConfig sampleRegs :=
  ⟨xmegaHeader_ok _,
   (disable_setup_disable xmegaHeader sampleConfig sampleRegs (xmegaHeader_ok _)).1.2,
   (disable_setup_disable xmegaHeader sampleConfig sampleRegs (xmegaHeader_ok _)).2.2.2.2⟩

/-! ## The tick interrupt service routines -/

/-- The steps and the final collaborator state of the preemptive ISR. -/
theorem ISR_preemptive_run {σ : Type} (k : Kernel σ) (m : Machine σ) :
    (ISR_preemptive k m).trace
      = m.trace ++ ([Step.portSAVE_CONTEXT, Step.xTaskIncrementTick]
          ++ (if (k.xTaskIncrementTick (k.portSAVE_CONTEXT m.kernel)).1 = true
              then [Step.vTaskSwitchContext] else [])
          ++ [Step.portRESTORE_CONTEXT, Step.reti]) ∧
    (ISR_preemptive k m).kernel
      = k.reti (k.portRESTORE_CONTEXT
          (if (k.xTaskIncrementTick (k.portSAVE_CONTEXT m.kernel)).1 = true
           then k.vTaskSwitchContext (k.xTaskIncrementTick (k.portSAVE_CONTEXT m.kernel)).2
           else (k.xTaskIncrementTick (k.portSAVE_CONTEXT m.kernel)).2)) := by
  cases hb : (k.xTaskIncrementTick (k.portSAVE_CONTEXT m.kernel)).1 <;>
    simp [ISR_preemptive, Machine.exec, Machine.incrementTick, pdFALSE, hb]

/-- C3: in preemptive mode (`configUSE_PREEMPTION == 1`), whatever the
collaborators do, one run of the tick ISR performs exactly: context save,
`xTaskIncrementTick`, `vTaskSwitchContext` if and only if the tick call
returned true, context restore, `reti`, in this order.  The tick call is
made on the state the save left; save, tick call, restore and `reti` each
happen once on both branches, and the switch call once or not at all. -/
theorem ISR_preemptive_sequence {σ : Type} (c : FreeRTOSConfig) (k : Kernel σ) (m : Machine σ)
    (hp : c.configUSE_PREEMPTION = 1) :
    (ISR c k m).trace
      = m.trace ++ ([Step.portSAVE_CONTEXT, Step.xTaskIncrementTick]
          ++ (if (k.xTaskIncrementTick (k.portSAVE_CONTEXT m.kernel)).1 = true
              then [Step.vTaskSwitchContext] else [])
          ++ [Step.portRESTORE_CONTEXT, Step.reti]) ∧
    (ISR c k m).kernel
      = k.reti (k.portRESTORE_CONTEXT
          (if (k.xTaskIncrementTick (k.portSAVE_CONTEXT m.kernel)).1 = true
           then k.vTaskSwitchContext (k.xTaskIncrementTick (k.portSAVE_CONTEXT m.kernel)).2
           else (k.xTaskIncrementTick (k.portSAVE_CONTEXT m.kernel)).2)) ∧
    (ISR c k m).trace.count Step.portSAVE_CONTEXT
      = m.trace.count Step.portSAVE_CONTEXT + 1 ∧
    (ISR c k m).trace.count Step.xTaskIncrementTick
      = m.trace.count Step.xTaskIncrementTick + 1 ∧
    (ISR c k m).trace.count Step.vTaskSwitchContext
      = m.trace.count Step.vTaskSwitchContext
        + (if (k.xTaskIncrementTick (k.portSAVE_CONTEXT m.kernel)).1 = true then 1 else 0) ∧
    (ISR c k m).trace.count Step.portRESTORE_CONTEXT
      = m.trace.count Step.portRESTORE_CONTEXT + 1 ∧
    (ISR c k m).trace.count Step.reti = m.trace.count Step.reti + 1 := by
  have hISR : ISR c k m = ISR_preemptive k m := by
    unfold ISR
    rw [if_pos hp]
  obtain ⟨ht, hk⟩ := ISR_preemptive_run k m
  rw [hISR]
  refine ⟨ht, hk, ?_, ?_, ?_, ?_, ?_⟩ <;> rw [ht] <;>
    cases (k.xTaskIncrementTick (k.portSAVE_CONTEXT m.kernel)).1 <;>
    simp [List.count_append, List.count_cons]

/-- Two consecutive tick interrupts on the sample collaborators, starting at
tick count 0: the first finds no switch due, the second does. -/
theorem ISR_preemptive_sequence_witness :
    sampleConfig.configUSE_PREEMPTION = 1 ∧
    (ISR sampleConfig sampleKernel { kernel := 0, trace := [] }).trace
      = [Step.portSAVE_CONTEXT, Step.xTaskIncrementTick, Step.portRESTORE_CONTEXT, Step.reti] ∧
    (ISR sampleConfig sampleKernel { kernel := 1, trace := [] }).trace
      = [Step.portSAVE_CONTEXT, Step.xTaskIncrementTick, Step.vTaskSwitchContext,
          Step.portRESTORE_CONTEXT, Step.reti] :=
  ⟨rfl,
   (ISR_preemptive_sequence sampleConfig sampleKernel { kernel := 0, trace := [] } rfl).1,
   (ISR_preemptive_sequence sampleConfig sampleKernel { kernel := 1, trace := [] } rfl).1⟩

/-- C4: in cooperative mode (`configUSE_PREEMPTION != 1`), whatever
`xTaskIncrementTick` returns, one run of the tick ISR performs exactly one
step, the call of `xTaskIncrementTick`: it adds one tick call to the log and
no `vTaskSwitchContext`, no context save and no context restore. -/
theorem ISR_cooperative_sequence {σ : Type} (c : FreeRTOSConfig) (k : Kernel σ) (m : Machine σ)
    (hp : c.configUSE_PREEMPTION ≠ 1) :
    (ISR c k m).trace = m.trace ++ [Step.xTaskIncrementTick] ∧
    (ISR c k m).kernel = (k.xTaskIncrementTick m.kernel).2 ∧
    (ISR c k m).trace.count Step.xTaskIncrementTick
      = m.trace.count Step.xTaskIncrementTick + 1 ∧
    (ISR c k m).trace.count Step.vTaskSwitchContext
      = m.trace.count Step.vTaskSwitchContext ∧
    (ISR c k m).trace.count Step.portSAVE_CONTEXT
      = m.trace.count Step.portSAVE_CONTEXT ∧
    (ISR c k m).trace.count Step.portRESTORE_CONTEXT
      = m.trace.count Step.portRESTORE_CONTEXT := by
  have hISR : ISR c k m = ISR_cooperative k m := by
    unfold ISR
    rw [if_neg hp]
  rw [hISR]
  simp [ISR_cooperative, Machine.incrementTick, List.count_append, List.count_cons]

/-- A tick interrupt of the cooperative sample configuration at tick count
1, where the tick call reports a switch due: the only step is the tick
call. -/
theorem ISR_cooperative_sequence_witness :
    cooperativeConfig.configUSE_PREEMPTION ≠ 1 ∧
    (sampleKernel.xTaskIncrementTick 1).1 = true ∧
    (ISR cooperativeConfig sampleKernel { kernel := 1, trace := [] }).trace
      = [Step.xTaskIncrementTick] :=
  ⟨by decide, rfl,
   (ISR_cooperative_sequence cooperativeConfig sampleKernel { kernel := 1, trace := [] }
      (by decide)).1⟩

/-! ## Boundaries of the period value -/

/-- C9, as stated, fails: with a derived period value of 65536 the routine
does not reject the configuration; it overwrites `PER` (1234 before) with
the value converted to 16 bits, which is 0. -/
theorem period_overflow_is_written :
    overflowConfig.configCPU_CLOCK_HZ / overflowConfig.configTICK_RATE_HZ = 65536 ∧
    (TC_REG overflowConfig sampleRegs).PER = 1234 ∧
    (TC_REG overflowConfig
      (prvSetupTimerInterrupt xmegaHeader overflowConfig sampleRegs)).PER = 0 := by
  refine ⟨by decide, rfl, ?_⟩
  rw [setup_PER]
  decide

/-- C9, amended: `prvSetupTimerInterrupt` has no rejection path; it always
leaves in `PER` the derived period value converted to 16 bits. A derived
value of 65535 is written unchanged, and a derived value of 65536 is written
as 0. -/
theorem period_boundary (h : IoHeader) (c : FreeRTOSConfig) (s : Regs) :
    (TC_REG c (prvSetupTimerInterrupt h c s)).PER
      = (c.configCPU_CLOCK_HZ / c.configTICK_RATE_HZ) % 2 ^ 16 ∧
    (c.configCPU_CLOCK_HZ / c.configTICK_RATE_HZ = 65535 →
      (TC_REG c (prvSetupTimerInterrupt h c s)).PER = 65535) ∧
    (c.configCPU_CLOCK_HZ / c.configTICK_RATE_HZ = 65536 →
      (TC_REG c (prvSetupTimerInterrupt h c s)).PER = 0) := by
  rw [setup_PER]
  refine ⟨rfl, fun hq => ?_, fun hq => ?_⟩ <;> rw [hq] <;> decide

/-- The two boundary configurations on the sample state. -/
theorem period_boundary_witness :
    maxPeriodConfig.configCPU_CLOCK_HZ / maxPeriodConfig.configTICK_RATE_HZ = 65535 ∧
    (TC_REG maxPeriodConfig
      (prvSetupTimerInterrupt xmegaHeader maxPeriodConfig sampleRegs)).PER = 65535 ∧
    overflowConfig.configCPU_CLOCK_HZ / overflowConfig.configTICK_RATE_HZ = 65536 ∧
    (TC_REG overflowConfig
      (prvSetupTimerInterrupt xmegaHeader overflowConfig sampleRegs)).PER = 0 :=
  ⟨by decide,
   (period_boundary xmegaHeader maxPeriodConfig sampleRegs).2.1 (by decide),
   by decide,
   (period_boundary xmegaHeader overflowConfig sampleRegs).2.2 (by decide)⟩

/-- C10, as stated, fails: a 1 kHz CPU clock and a 2 kHz tick rate are
positive and their quotient, 0, fits 16 bits, yet the period value written
is not greater than 0. -/
theorem period_zero_within_precondition :
    0 < slowClockConfig.configCPU_CLOCK_HZ ∧
    0 < slowClockConfig.configTICK_RATE_HZ ∧
    slowClockConfig.configCPU_CLOCK_HZ / slowClockConfig.configTICK_RATE_HZ < 2 ^ 16 ∧
    ¬ 0 < (TC_REG slowClockConfig
      (prvSetupTimerInterrupt xmegaHeader slowClockConfig sampleRegs)).PER := by
  refine ⟨by decide, by decide, by decide, ?_⟩
  rw [setup_PER]
  decide

/-- C10, amended: when the tick rate is positive and not above the CPU clock,
and the quotient fits the 16-bit counter, the period value written to `PER`
is greater than 0. -/
theorem period_positive (h : IoHeader) (c : FreeRTOSConfig) (s : Regs)
    (htick : 0 < c.configTICK_RATE_HZ) (hle : c.configTICK_RATE_HZ ≤ c.configCPU_CLOCK_HZ)
    (hfit : c.configCPU_CLOCK_HZ / c.configTICK_RATE_HZ < 2 ^ 16) :
    0 < (TC_REG c (prvSetupTimerInterrupt h c s)).PER := by
  rw [setup_PER, Nat.mod_eq_of_lt hfit]
  exact Nat.div_pos hle htick

/-- The sample configuration, 2 MHz over 1 kHz, gives a positive period. -/
theorem period_positive_witness :
    0 < sampleConfig.configTICK_RATE_HZ ∧
    sampleConfig.configTICK_RATE_HZ ≤ sampleConfig.configCPU_CLOCK_HZ ∧
    sampleConfig.configCPU_CLOCK_HZ / sampleConfig.configTICK_RATE_HZ < 2 ^ 16 ∧
    0 < (TC_REG sampleConfig (prvSetupTimerInterrupt xmegaHeader sampleConfig sampleRegs)).PER :=
  ⟨by decide, by decide, by decide,
   period_positive xmegaHeader sampleConfig sampleRegs (by decide) (by decide) (by decide)⟩

end PortAtxmegaTc
